import Mathlib

/-!
Verification of the color-space conversion engine in `gil/dip/ColorSpace.h`.

Shallow embedding conventions:
* C++ `double` (the extended arithmetic type) is modelled by exact rationals `ℚ`;
  every decimal literal of the source is exact in this model.
* IEEE non-finite results (NaN / Infinity), which arise from the divisions in the
  HSV / HSL / Luv converters, are modelled by `Option ℚ` (`none` = non-finite);
  arithmetic propagates `none` and a division whose denominator is zero (or whose
  operands are non-finite) yields `none`, matching IEEE `x/0` and NaN propagation.
* 8-bit / 16-bit channel storage is modelled by `ℤ`; the C++ `static_cast` from a
  floating value to an integer channel truncates toward zero (`truncQ`).
* `std::pow (· , 1/3)` (the cube root, an external libm routine) is an explicit
  function parameter `cbrt` of the Lab / Luv embeddings.
* The trait providers (`TypeTrait`, `ColorTrait`, `DefaultConverter`) live in
  headers outside this repository's sources; their contract is taken from the
  specification: the `opaque` maximum is 255 (8-bit), 65535 (16-bit), 1 (float),
  and the precision converter widens within the same color model.
-/

/-- A three-channel pixel over channel type `α` (the source's `Color<T, 3>`). -/
abbrev Color3 (α : Type) : Type := α × α × α

/-- Extended-precision value as computed by IEEE arithmetic: `some q` is the finite
value `q`, `none` stands for a non-finite result (NaN or Infinity). -/
abbrev FVal : Type := Option ℚ

/-- Addition on possibly non-finite values; non-finite operands propagate. -/
def fadd (a b : FVal) : FVal :=
  match a, b with
  | some x, some y => some (x + y)
  | _, _ => none

/-- Subtraction on possibly non-finite values; non-finite operands propagate. -/
def fsub (a b : FVal) : FVal :=
  match a, b with
  | some x, some y => some (x - y)
  | _, _ => none

/-- Multiplication on possibly non-finite values; non-finite operands propagate. -/
def fmul (a b : FVal) : FVal :=
  match a, b with
  | some x, some y => some (x * y)
  | _, _ => none

/-- Division on possibly non-finite values: a zero denominator yields a non-finite
result (IEEE `x/0` is ±Infinity, `0/0` is NaN), and non-finite operands propagate. -/
def fdiv (a b : FVal) : FVal :=
  match a, b with
  | some x, some y => if y = 0 then none else some (x / y)
  | _, _ => none

/-- The C++ `static_cast` from a floating value to an integer type: truncation
toward zero. -/
def truncQ (q : ℚ) : ℤ :=
  if 0 ≤ q then Int.floor q else -(Int.floor (-q))

/-- Spec trait contract: the opaque (maximum representable) value of the 8-bit
channel storage type, as an 8-bit integer. -/
def chanMax8 : ℤ := 255

/-- Spec trait contract: the opaque value of the 16-bit channel storage type. -/
def chanMax16 : ℤ := 65535

/-- Spec trait contract: the opaque value of floating-point channel storage. -/
def chanMaxF : ℚ := 1

/-- The `delta` constant of `RgbToYCrCb` / `YCrCbToRgb` for 8-bit storage:
`TypeTrait<value_type>::opaque() / 2` evaluated in integer arithmetic
(C++ division of integers truncates). -/
def delta8 : ℤ := chanMax8.tdiv 2

/-- The `delta` constant for 16-bit storage, `opaque() / 2` in integer arithmetic. -/
def delta16 : ℤ := chanMax16.tdiv 2

/-- The `delta` constant for floating-point storage, `opaque() / 2` in floating
arithmetic. -/
def deltaF : ℚ := chanMaxF / 2

/-- The luminance formula of `RgbToGray::operator()` (ColorSpace.h lines 39-41),
computed in the extended precision of the multiplications. -/
def grayFormula (r g b : ℚ) : ℚ := 0.299 * r + 0.587 * g + 0.114 * b

/-- Source `RgbToGray` for floating-point channel storage: the final `static_cast` to the
floating channel type is the identity in this model. -/
def RgbToGrayF (c : Color3 ℚ) : ℚ := grayFormula c.1 c.2.1 c.2.2

/-- Source `RgbToGray` for 8-bit channel storage: the integer channels are promoted into
the floating multiplications and the result is narrowed by one truncating cast. -/
def RgbToGray8 (c : Color3 ℤ) : ℤ :=
  truncQ (grayFormula (c.1 : ℚ) (c.2.1 : ℚ) (c.2.2 : ℚ))

/-- Source `RgbToXyz::operator()` (ColorSpace.h lines 57-61): the fixed forward matrix,
applied in the channel's own (here extended/floating) type. -/
def RgbToXyzQ (c : Color3 ℚ) : Color3 ℚ :=
  (0.412453 * c.1 + 0.357580 * c.2.1 + 0.180423 * c.2.2,
   0.212671 * c.1 + 0.715160 * c.2.1 + 0.072169 * c.2.2,
   0.019334 * c.1 + 0.119193 * c.2.1 + 0.950227 * c.2.2)

/-- Source `XyzToRgb::operator()` (ColorSpace.h lines 77-81): the fixed reverse matrix. -/
def XyzToRgbQ (c : Color3 ℚ) : Color3 ℚ :=
  (3.240479 * c.1 + -1.53715 * c.2.1 + -0.498535 * c.2.2,
   -0.969256 * c.1 + 1.875991 * c.2.1 + 0.041556 * c.2.2,
   0.055648 * c.1 + -0.204043 * c.2.1 + 1.057311 * c.2.2)

/-- Source `RgbToYCrCb::operator()` (ColorSpace.h lines 104-113) for 8-bit storage:
`Y` is produced by `RgbToGray` and stored in the narrow `value_type` before the
chroma terms use it; each chroma term is narrowed by its own `static_cast`. -/
def RgbToYCrCb8 (c : Color3 ℤ) : Color3 ℤ :=
  let Y : ℤ := RgbToGray8 c
  let Cr : ℤ := truncQ (((c.1 : ℚ) - (Y : ℚ)) * 0.713 + (delta8 : ℚ))
  let Cb : ℤ := truncQ (((c.2.2 : ℚ) - (Y : ℚ)) * 0.564 + (delta8 : ℚ))
  (Y, Cr, Cb)

/-- Source `RgbToYCrCb::operator()` for floating-point storage (every `static_cast` is
the identity in this model). -/
def RgbToYCrCbF (c : Color3 ℚ) : Color3 ℚ :=
  let Y : ℚ := RgbToGrayF c
  (Y, (c.1 - Y) * 0.713 + deltaF, (c.2.2 - Y) * 0.564 + deltaF)

/-- Source `YCrCbToRgb::operator()` (ColorSpace.h lines 143-145) for floating-point
storage, with the coefficient attachment exactly as implemented. -/
def YCrCbToRgbF (c : Color3 ℚ) : Color3 ℚ :=
  let Y := c.1
  let Cr := c.2.1
  let Cb := c.2.2
  (Y + 1.403 * (Cr - deltaF),
   Y - 0.714 * (Cr - deltaF) - 0.344 * (Cb - deltaF),
   Y + 1.773 * (Cb - deltaF))

/-- The reverse YCbCr formula with the G coefficients attached the other way
round, as the reference documentation transcribed in the source's comment
(ColorSpace.h lines 129-130) states: `0.344` on the `Cr` term, `0.714` on the
`Cb` term. -/
def YCrCbToRgbSwapped (c : Color3 ℚ) : Color3 ℚ :=
  let Y := c.1
  let Cr := c.2.1
  let Cb := c.2.2
  (Y + 1.403 * (Cr - deltaF),
   Y - 0.344 * (Cr - deltaF) - 0.714 * (Cb - deltaF),
   Y + 1.773 * (Cb - deltaF))

/-- Wrap-around of the hue: the source's `if (H < 0) H += 360;`. An IEEE
comparison against NaN is false, so a non-finite hue is left unchanged. -/
def hueWrap (h : FVal) : FVal :=
  match h with
  | some x => if x < 0 then some (x + 360) else some x
  | none => none

/-- Apply the per-channel narrowing cast of the destination storage class to all
three channels of the result. -/
def colorMap {α β : Type} (narrow : α → β) (c : Color3 α) : Color3 β :=
  (narrow c.1, narrow c.2.1, narrow c.2.2)

/-- Body of `RgbToHsv::operator()` (ColorSpace.h lines 186-208) on the
widened extended-precision pixel `t`: `V = max(max(R,G), max(G,B))`;
`S = V ? (V - min(min(R,G), min(G,B)))/V : 0`; the hue branch divides by `S`
(which the guard does not protect), then wraps negative hues. -/
def hsvCore (t : Color3 ℚ) : Color3 FVal :=
  let R := t.1
  let G := t.2.1
  let B := t.2.2
  let V : ℚ := max (max R G) (max G B)
  let S : ℚ := if V = 0 then 0 else (V - min (min R G) (min G B)) / V
  let H : FVal :=
    if V = R then fdiv (some ((G - B) * 60)) (some S)
    else if V = G then fadd (some 120) (fdiv (some ((B - R) * 60)) (some S))
    else fadd (some 240) (fdiv (some ((R - G) * 60)) (some S))
  (hueWrap H, some S, some V)

/-- Source `RgbToHsv::operator()` parameterized over the external precision widener
(`DefaultConverter<tmp_color, T>`) and the destination narrowing cast: the three
extended-precision results are each narrowed once, directly, at the `return`. -/
def RgbToHsvGen {σ τ : Type} (widen : σ → Color3 ℚ) (narrow : FVal → τ)
    (c : σ) : Color3 τ :=
  colorMap narrow (hsvCore (widen c))

/-- Source `RgbToHsv` for floating-point storage: widening and narrowing are both the
identity in this model. -/
def RgbToHsvF (c : Color3 ℚ) : Color3 FVal := RgbToHsvGen id id c

/-- Body of `RgbToHsl::operator()` (ColorSpace.h lines 264-291) on the widened
pixel: `L = (Vmax+Vmin)/2`; `S` is chosen by `L < 0.5` and its division is
unguarded, so it can itself be non-finite; the hue branch divides by `S`. -/
def hslCore (t : Color3 ℚ) : Color3 FVal :=
  let R := t.1
  let G := t.2.1
  let B := t.2.2
  let Vmax : ℚ := max (max R G) (max G B)
  let Vmin : ℚ := min (min R G) (min G B)
  let L : ℚ := (Vmax + Vmin) / 2
  let S : FVal :=
    if L < 0.5 then fdiv (some (Vmax - Vmin)) (some (Vmax + Vmin))
    else fdiv (some (Vmax - Vmin)) (some (2 - (Vmax + Vmin)))
  let H : FVal :=
    if Vmax = R then fdiv (some ((G - B) * 60)) S
    else if Vmax = G then fadd (some 120) (fdiv (some ((B - R) * 60)) S)
    else fadd (some 240) (fdiv (some ((R - G) * 60)) S)
  (hueWrap H, S, some L)

/-- Source `RgbToHsl::operator()` parameterized over the precision widener and the
destination narrowing cast, which is applied once per channel at the `return`. -/
def RgbToHslGen {σ τ : Type} (widen : σ → Color3 ℚ) (narrow : FVal → τ)
    (c : σ) : Color3 τ :=
  colorMap narrow (hslCore (widen c))

/-- Source `RgbToHsl` for floating-point storage. -/
def RgbToHslF (c : Color3 ℚ) : Color3 FVal := RgbToHslGen id id c

/-- The piecewise helper `RgbToLab::f` (ColorSpace.h lines 374-381):
`f(t) = t^(1/3)` for `t > 0.008856`, else `7.787 t + 16/116`; `cbrt` models
`std::pow (·, 1/3)`. -/
def labHelper (cbrt : ℚ → ℚ) (t : ℚ) : ℚ :=
  if t > 0.008856 then cbrt t else 7.787 * t + 16 / 116

/-- Body of `RgbToLab::operator()` (ColorSpace.h lines 349-370) on the widened
pixel: XYZ via the forward matrix, `X` and `Z` normalized by the D65 white
point, `delta = 0`, and `L = 116 · Y^(1/3)` (no `−16`) in the bright branch. -/
def labCore (cbrt : ℚ → ℚ) (t : Color3 ℚ) : Color3 ℚ :=
  let xyz := RgbToXyzQ t
  let X : ℚ := xyz.1 / 0.950456
  let Y : ℚ := xyz.2.1
  let Z : ℚ := xyz.2.2 / 1.088754
  let delta : ℚ := 0
  let L : ℚ := if Y > 0.008856 then 116 * cbrt Y else 903.3 * Y
  let a : ℚ := 500 * (labHelper cbrt X - labHelper cbrt Y) + delta
  let b : ℚ := 200 * (labHelper cbrt Y - labHelper cbrt Z) + delta
  (L, a, b)

/-- Source `RgbToLab` for floating-point storage. -/
def RgbToLabF (cbrt : ℚ → ℚ) (c : Color3 ℚ) : Color3 ℚ := labCore cbrt c

/-- Body of `RgbToLuv::operator()` (ColorSpace.h lines 433-456) on the widened
pixel: XYZ via the forward matrix (no white-point normalization),
`L = 116 · Y^(1/3) − 16` in the bright branch, and the chromaticities divide by
`X + 15Y + 3Z`, which is zero for pure black. -/
def luvCore (cbrt : ℚ → ℚ) (t : Color3 ℚ) : Color3 FVal :=
  let xyz := RgbToXyzQ t
  let X : ℚ := xyz.1
  let Y : ℚ := xyz.2.1
  let Z : ℚ := xyz.2.2
  let L : ℚ := if Y > 0.008856 then 116 * cbrt Y - 16 else 903.3 * Y
  let u' : FVal := fdiv (some (4 * X)) (some (X + 15 * Y + 3 * Z))
  let v' : FVal := fdiv (some (9 * Y)) (some (X + 15 * Y + 3 * Z))
  let un : ℚ := 0.19793943
  let vn : ℚ := 0.46831096
  let u : FVal := fmul (some (13 * L)) (fsub u' (some un))
  let v : FVal := fmul (some (13 * L)) (fsub v' (some vn))
  (some L, u, v)

/-- Source `RgbToLuv` for floating-point storage. -/
def RgbToLuvF (cbrt : ℚ → ℚ) (c : Color3 ℚ) : Color3 FVal := luvCore cbrt c

/-- The error surface for the unimplemented reverse conversions: the source
bodies are an unconditional `assert(0)` (a trap), surfaced here as an explicit
error value as the specification's error-handling design requires. -/
inductive ConvError : Type where
  | unimplemented
deriving DecidableEq

/-- Source `HsvToRgb::operator()` (ColorSpace.h lines 218-222): unconditionally
`assert(0)`; no pixel value is ever produced. -/
def HsvToRgbF (_c : Color3 ℚ) : Except ConvError (Color3 ℚ) :=
  Except.error ConvError.unimplemented

/-- Source `HslToRgb::operator()` (ColorSpace.h lines 301-305): unconditionally
`assert(0)`. -/
def HslToRgbF (_c : Color3 ℚ) : Except ConvError (Color3 ℚ) :=
  Except.error ConvError.unimplemented

/-- Source `LabToRgb::operator()` (ColorSpace.h lines 389-393): unconditionally
`assert(0)`. -/
def LabToRgbF (_c : Color3 ℚ) : Except ConvError (Color3 ℚ) :=
  Except.error ConvError.unimplemented

/-- Source `LuvToRgb::operator()` (ColorSpace.h lines 470-474): unconditionally
`assert(0)`. -/
def LuvToRgbF (_c : Color3 ℚ) : Except ConvError (Color3 ℚ) :=
  Except.error ConvError.unimplemented

/-- Raw HSV transform written from the specification's own words (§4.4):
`V = max(R,G,B)`; `S = (V − min(R,G,B))/V` if `V ≠ 0`, else `S = 0`; hue by the
three-way branch on which channel attains `V`, still dividing by `S`; negative
hues wrapped by `+360`. Used to state that the implementation narrows these raw
values directly. -/
def hsvSpecRaw (t : Color3 ℚ) : Color3 FVal :=
  let R := t.1
  let G := t.2.1
  let B := t.2.2
  let V : ℚ := max R (max G B)
  let S : ℚ := if V ≠ 0 then (V - min R (min G B)) / V else 0
  let H : FVal :=
    if V = R then fdiv (some ((G - B) * 60)) (some S)
    else if V = G then fadd (some 120) (fdiv (some ((B - R) * 60)) (some S))
    else fadd (some 240) (fdiv (some ((R - G) * 60)) (some S))
  (hueWrap H, some S, some V)

/-- Raw HSL transform written from the specification's own words (§4.5):
`Vmax`/`Vmin`, `L = (Vmax+Vmin)/2`, `S` piecewise on `L < 0.5`, hue identical to
HSV. -/
def hslSpecRaw (t : Color3 ℚ) : Color3 FVal :=
  let R := t.1
  let G := t.2.1
  let B := t.2.2
  let Vmax : ℚ := max R (max G B)
  let Vmin : ℚ := min R (min G B)
  let L : ℚ := (Vmax + Vmin) / 2
  let S : FVal :=
    if L < 0.5 then fdiv (some (Vmax - Vmin)) (some (Vmax + Vmin))
    else fdiv (some (Vmax - Vmin)) (some (2 - (Vmax + Vmin)))
  let H : FVal :=
    if Vmax = R then fdiv (some ((G - B) * 60)) S
    else if Vmax = G then fadd (some 120) (fdiv (some ((B - R) * 60)) S)
    else fadd (some 240) (fdiv (some ((R - G) * 60)) S)
  (hueWrap H, S, some L)

/-- Reference YCbCr forward transform written from the specification's data-flow
discipline (§3): widen the input, compute `Y`, `Cr`, `Cb` entirely in extended
precision, and narrow each result channel exactly once at the end. It uses the
same `delta` constant the implementation computes, so any disagreement with
`RgbToYCrCb8` isolates the narrowing discipline. 8-bit storage. -/
def YCrCbRef8 (c : Color3 ℤ) : Color3 ℤ :=
  let Y : ℚ := grayFormula (c.1 : ℚ) (c.2.1 : ℚ) (c.2.2 : ℚ)
  (truncQ Y,
   truncQ (((c.1 : ℚ) - Y) * 0.713 + (delta8 : ℚ)),
   truncQ (((c.2.2 : ℚ) - Y) * 0.564 + (delta8 : ℚ)))

/-- Reference YCbCr forward transform for floating-point storage: compute in
extended precision, narrow (identity) once at the end. -/
def YCrCbRefF (c : Color3 ℚ) : Color3 ℚ :=
  let Y : ℚ := grayFormula c.1 c.2.1 c.2.2
  (Y, (c.1 - Y) * 0.713 + deltaF, (c.2.2 - Y) * 0.564 + deltaF)

/-- The thirteen converters of the core. -/
inductive Conv : Type where
  | rgbToGray
  | rgbToXyz
  | xyzToRgb
  | rgbToYCrCb
  | yCrCbToRgb
  | rgbToHsv
  | hsvToRgb
  | rgbToHsl
  | hslToRgb
  | rgbToLab
  | labToRgb
  | rgbToLuv
  | luvToRgb
deriving DecidableEq

/-- Translation of the template declaration structure of ColorSpace.h: whether
an instantiation of a converter at a pixel type with `n` channels has a
definition the compiler can instantiate. For every converter a specialization
at `Color<T, 2>` is declared but never defined (lines 44, 64, 84, 116, 150,
211, 224, 294, 307, 383, 395, 459, 476), making the 2-channel instantiation an
incomplete type — a build failure; the primary template (or, for `RgbToGray`,
the `Color<T, C>` partial specialization) provides the definition for every
other channel count. -/
def hasDefinitionAt (cv : Conv) (n : ℕ) : Bool :=
  match cv with
  | Conv.rgbToGray => !(n == 2)
  | Conv.rgbToXyz => !(n == 2)
  | Conv.xyzToRgb => !(n == 2)
  | Conv.rgbToYCrCb => !(n == 2)
  | Conv.yCrCbToRgb => !(n == 2)
  | Conv.rgbToHsv => !(n == 2)
  | Conv.hsvToRgb => !(n == 2)
  | Conv.rgbToHsl => !(n == 2)
  | Conv.hslToRgb => !(n == 2)
  | Conv.rgbToLab => !(n == 2)
  | Conv.labToRgb => !(n == 2)
  | Conv.rgbToLuv => !(n == 2)
  | Conv.luvToRgb => !(n == 2)

/-- The in-range predicate for an RGB pixel in floating-point storage: every
channel lies in `[0, 1]`. -/
def rgbInRange (c : Color3 ℚ) : Prop :=
  0 ≤ c.1 ∧ c.1 ≤ 1 ∧ 0 ≤ c.2.1 ∧ c.2.1 ≤ 1 ∧ 0 ≤ c.2.2 ∧ c.2.2 ≤ 1

instance (c : Color3 ℚ) : Decidable (rgbInRange c) := by
  unfold rgbInRange
  infer_instance

lemma delta8_eq : delta8 = 127 := by decide

lemma delta16_eq : delta16 = 32767 := by decide

lemma max3_eq (R G B : ℚ) : max (max R G) (max G B) = max R (max G B) := by
  rw [max_assoc, ← max_assoc G G B, max_self]

lemma min3_eq (R G B : ℚ) : min (min R G) (min G B) = min R (min G B) := by
  rw [min_assoc, ← min_assoc G G B, min_self]

lemma hsvCore_eq_raw (t : Color3 ℚ) : hsvCore t = hsvSpecRaw t := by
  obtain ⟨R, G, B⟩ := t
  simp only [hsvCore, hsvSpecRaw, max3_eq, min3_eq]
  by_cases h : max R (max G B) = 0
  · simp [h]
  · simp [h]

lemma hslCore_eq_raw (t : Color3 ℚ) : hslCore t = hslSpecRaw t := by
  obtain ⟨R, G, B⟩ := t
  simp only [hslCore, hslSpecRaw, max3_eq, min3_eq]

/-- C1: the delta offset is computed as `opaque() / 2` in the channel storage
type, so integer storage truncates the halving: the code yields `delta = 127`
for 8-bit and `32767` for 16-bit — not the `128` / `32768` stated by the claim
and by the code's own comment (ColorSpace.h lines 100-102) — and accordingly
`RgbToYCrCb` on the 8-bit achromatic gray `(128,128,128)` returns
`(Y,Cr,Cb) = (128,127,127)`, not `(128,128,128)`. Only the floating-point value
`0.5` matches the claim. -/
theorem delta_halving_truncates :
    delta8 = 127 ∧ delta16 = 32767 ∧ deltaF = 1 / 2 ∧
    RgbToYCrCb8 (128, 128, 128) = (128, 127, 127) := by
  refine ⟨delta8_eq, delta16_eq, rfl, ?_⟩
  norm_num [RgbToYCrCb8, RgbToGray8, grayFormula, truncQ, delta8_eq, Prod.ext_iff]

/-- C2: `YCrCbToRgb` computes, for every input pixel, exactly
`R = Y + 1.403·(Cr−delta)`, `G = Y − 0.714·(Cr−delta) − 0.344·(Cb−delta)`,
`B = Y + 1.773·(Cb−delta)` with `delta = 1/2` for floating-point storage — and
this as-implemented coefficient attachment differs observably from the swapped
ordering of the reference documentation. -/
theorem ycrcb_reverse_as_implemented :
    (∀ c : Color3 ℚ,
      YCrCbToRgbF c =
        (c.1 + 1.403 * (c.2.1 - 1 / 2),
         c.1 - 0.714 * (c.2.1 - 1 / 2) - 0.344 * (c.2.2 - 1 / 2),
         c.1 + 1.773 * (c.2.2 - 1 / 2))) ∧
    YCrCbToRgbF (0, 1, 0) ≠ YCrCbToRgbSwapped (0, 1, 0) := by
  constructor
  · intro c
    rfl
  · simp only [YCrCbToRgbF, YCrCbToRgbSwapped, deltaF, chanMaxF, ne_eq, Prod.ext_iff]
    norm_num

/-- C3: each of the four reverse converters `HsvToRgb`, `HslToRgb`, `LabToRgb`,
`LuvToRgb` signals the unimplemented-operation error on every input and never
produces a pixel value (they are pure, so no caller state is touched). -/
theorem reverse_converters_unimplemented :
    ∀ hsv hsl lab luv : Color3 ℚ,
      HsvToRgbF hsv = Except.error ConvError.unimplemented ∧
      HslToRgbF hsl = Except.error ConvError.unimplemented ∧
      LabToRgbF lab = Except.error ConvError.unimplemented ∧
      LuvToRgbF luv = Except.error ConvError.unimplemented := by
  intro _ _ _ _
  exact ⟨rfl, rfl, rfl, rfl⟩

/-- C4 counterexample: the claim fails on the code — on black `(0,0,0)` the hue
computed by `RgbToHsv` is the non-finite `0/0` (NaN), on white `(1,1,1)` the
saturation of `RgbToHsl` is non-finite, and on black the chromaticities of
`RgbToLuv` divide by the zero denominator `X + 15Y + 3Z` and are non-finite. -/
theorem nan_policy_counterexample :
    (RgbToHsvF (0, 0, 0)).1 = none ∧
    (RgbToHslF (1, 1, 1)).2.1 = none ∧
    (RgbToLuvF id (0, 0, 0)).2.1 = none := by
  refine ⟨?_, ?_, ?_⟩
  · norm_num [RgbToHsvF, RgbToHsvGen, hsvCore, colorMap, hueWrap, fdiv, fadd]
  · norm_num [RgbToHslF, RgbToHslGen, hslCore, colorMap, hueWrap, fdiv, fadd]
  · norm_num [RgbToLuvF, luvCore, RgbToXyzQ, fdiv, fsub, fmul]

/-- C4 amended: in floating-point storage `RgbToHsv` yields `(0,1,1)` on pure
red and `(120,1,1)` on pure green; but at the degenerate inputs the literal
formulas divide zero by zero and the code propagates the non-finite result into
the produced pixel: on black the hue channel of `RgbToHsv` is non-finite (S and
V are 0), on white both hue and saturation of `RgbToHsl` are non-finite, and on
black the `u`, `v` channels of `RgbToLuv` are non-finite (L is 0). -/
theorem hsv_values_and_nan_on_degenerate :
    RgbToHsvF (1, 0, 0) = (some 0, some 1, some 1) ∧
    RgbToHsvF (0, 1, 0) = (some 120, some 1, some 1) ∧
    RgbToHsvF (0, 0, 0) = (none, some 0, some 0) ∧
    RgbToHslF (1, 1, 1) = (none, none, some 1) ∧
    (∀ cbrt : ℚ → ℚ, RgbToLuvF cbrt (0, 0, 0) = (some 0, none, none)) := by
  refine ⟨?_, ?_, ?_, ?_, ?_⟩
  · norm_num [RgbToHsvF, RgbToHsvGen, hsvCore, colorMap, hueWrap, fdiv, fadd, Prod.ext_iff]
  · norm_num [RgbToHsvF, RgbToHsvGen, hsvCore, colorMap, hueWrap, fdiv, fadd, Prod.ext_iff]
  · norm_num [RgbToHsvF, RgbToHsvGen, hsvCore, colorMap, hueWrap, fdiv, fadd, Prod.ext_iff]
  · norm_num [RgbToHslF, RgbToHslGen, hslCore, colorMap, hueWrap, fdiv, fadd, Prod.ext_iff]
  · intro cbrt
    norm_num [RgbToLuvF, luvCore, RgbToXyzQ, fdiv, fsub, fmul, Prod.ext_iff]

/-- C5: `RgbToHsv` and `RgbToHsl` narrow their result channels directly from the
raw `0..360` / `0..1` / `0..1` values to the destination channel type — for any
widener and any destination narrowing cast, the result is exactly the narrowing
applied once per channel to the raw values of the specification's formulas, with
no rescaling in between; for floating-point storage the returned channels equal
the raw values themselves, and with a truncating integer destination the green
pixel keeps the un-halved hue 120. -/
theorem hsv_hsl_direct_narrowing :
    (∀ (σ τ : Type) (widen : σ → Color3 ℚ) (narrow : FVal → τ) (c : σ),
      RgbToHsvGen widen narrow c = colorMap narrow (hsvSpecRaw (widen c)) ∧
      RgbToHslGen widen narrow c = colorMap narrow (hslSpecRaw (widen c))) ∧
    (∀ c : Color3 ℚ, RgbToHsvF c = hsvSpecRaw c ∧ RgbToHslF c = hslSpecRaw c) ∧
    RgbToHsvGen id (Option.map truncQ) ((0 : ℚ), (1 : ℚ), (0 : ℚ)) =
      (some 120, some 1, some 1) := by
  refine ⟨?_, ?_, ?_⟩
  · intro σ τ widen narrow c
    exact ⟨congrArg (colorMap narrow) (hsvCore_eq_raw (widen c)),
           congrArg (colorMap narrow) (hslCore_eq_raw (widen c))⟩
  · intro c
    exact ⟨hsvCore_eq_raw c, hslCore_eq_raw c⟩
  · norm_num [RgbToHsvGen, hsvCore, colorMap, hueWrap, fdiv, fadd, truncQ, Prod.ext_iff]

/-- C6: with `Y` the luminance produced by the forward XYZ matrix, the bright
branch (`Y > 0.008856`) of `RgbToLab` sets `L = 116 · Y^(1/3)` with no `−16`
offset, while the same branch of `RgbToLuv` sets `L = 116 · Y^(1/3) − 16`; on
the other branch both set `L = 903.3 · Y`. -/
theorem lab_luv_lightness_branches :
    ∀ (cbrt : ℚ → ℚ) (c : Color3 ℚ),
      ((RgbToXyzQ c).2.1 > 0.008856 →
        (RgbToLabF cbrt c).1 = 116 * cbrt (RgbToXyzQ c).2.1 ∧
        (RgbToLuvF cbrt c).1 = some (116 * cbrt (RgbToXyzQ c).2.1 - 16)) ∧
      (¬ (RgbToXyzQ c).2.1 > 0.008856 →
        (RgbToLabF cbrt c).1 = 903.3 * (RgbToXyzQ c).2.1 ∧
        (RgbToLuvF cbrt c).1 = some (903.3 * (RgbToXyzQ c).2.1)) := by
  intro cbrt c
  constructor <;> intro h <;>
    exact ⟨by simp [RgbToLabF, labCore, h], by simp [RgbToLuvF, luvCore, h]⟩

/-- Witness for C6: white `(1,1,1)` lands in the bright branch (`Y = 1`), where
Lab keeps `L = 116 · Y^(1/3)` and Luv subtracts 16. -/
theorem lab_luv_lightness_branches_witness :
    (RgbToXyzQ (1, 1, 1)).2.1 > 0.008856 ∧
    ((RgbToLabF id (1, 1, 1)).1 = 116 * id (RgbToXyzQ (1, 1, 1)).2.1 ∧
     (RgbToLuvF id (1, 1, 1)).1 = some (116 * id (RgbToXyzQ (1, 1, 1)).2.1 - 16)) := by
  have h : (RgbToXyzQ (1, 1, 1)).2.1 > 0.008856 := by norm_num [RgbToXyzQ]
  exact ⟨h, (lab_luv_lightness_branches id (1, 1, 1)).1 h⟩

/-- C7: `RgbToGray` computes `Y = 0.299·R + 0.587·G + 0.114·B` and narrows it to
the destination channel type by a single truncating cast; on the 8-bit pure red
pixel `(255,0,0)` it yields `trunc(76.245) = 76`. -/
theorem gray_formula_and_pure_red :
    (∀ c : Color3 ℤ,
      RgbToGray8 c =
        truncQ (0.299 * (c.1 : ℚ) + 0.587 * (c.2.1 : ℚ) + 0.114 * (c.2.2 : ℚ))) ∧
    (∀ c : Color3 ℚ,
      RgbToGrayF c = 0.299 * c.1 + 0.587 * c.2.1 + 0.114 * c.2.2) ∧
    RgbToGray8 (255, 0, 0) = 76 := by
  refine ⟨fun c => rfl, fun c => rfl, ?_⟩
  norm_num [RgbToGray8, grayFormula, truncQ]

/-- C9 counterexample: `RgbToYCrCb` narrows `Y` to the 8-bit storage type before
the chroma terms use it, so on `(255,255,0)` it disagrees with the reference
that performs all intermediate arithmetic in extended precision and narrows each
channel exactly once at the end. -/
theorem single_narrowing_counterexample :
    RgbToYCrCb8 (255, 255, 0) ≠ YCrCbRef8 (255, 255, 0) := by
  norm_num [RgbToYCrCb8, RgbToGray8, YCrCbRef8, grayFormula, truncQ, delta8_eq, Prod.ext_iff]

/-- C9 amended: for floating-point storage — where every narrowing cast is the
identity — `RgbToYCrCb` coincides with the widen/compute-in-extended/narrow-once
reference on every pixel; but for integer storage the luminance `Y` is narrowed
mid-computation before being reused in the chroma terms, so the converter
differs from that reference: on the 8-bit pixel `(255,255,0)` the code returns
`Cr = 148` where the single-final-narrowing reference returns `Cr = 147`. -/
theorem ycrcb_mid_narrowing_amended :
    (∀ c : Color3 ℚ, RgbToYCrCbF c = YCrCbRefF c) ∧
    RgbToYCrCb8 (255, 255, 0) = (225, 148, 0) ∧
    YCrCbRef8 (255, 255, 0) = (225, 147, 0) := by
  refine ⟨fun c => rfl, ?_, ?_⟩
  · norm_num [RgbToYCrCb8, RgbToGray8, grayFormula, truncQ, delta8_eq, Prod.ext_iff]
  · norm_num [YCrCbRef8, grayFormula, truncQ, delta8_eq, Prod.ext_iff]

/-- C10: every converter of the core leaves its 2-channel instantiation without
a definition (the `Color<T,2>` specialization is declared but never defined), so
instantiating any of the thirteen converters at a 2-channel pixel type is
rejected when the program is built — no run-time entity for the 2-channel case
exists at all — while the 3-channel instantiation is defined. -/
theorem two_channel_guard :
    ∀ cv : Conv, hasDefinitionAt cv 2 = false ∧ hasDefinitionAt cv 3 = true := by
  intro cv
  cases cv <;> exact ⟨rfl, rfl⟩

/-- C8: the `XyzToRgb` matrix is the (numerically rounded) algebraic inverse of
the `RgbToXyz` matrix, so for every in-range RGB pixel in floating-point storage
the round trip `XyzToRgb (RgbToXyz c)` returns `c` within `10⁻⁵` per channel. -/
theorem xyz_roundtrip_tolerance :
    ∀ c : Color3 ℚ, rgbInRange c →
      |(XyzToRgbQ (RgbToXyzQ c)).1 - c.1| ≤ 1 / 100000 ∧
      |(XyzToRgbQ (RgbToXyzQ c)).2.1 - c.2.1| ≤ 1 / 100000 ∧
      |(XyzToRgbQ (RgbToXyzQ c)).2.2 - c.2.2| ≤ 1 / 100000 := by
  rintro ⟨r, g, b⟩ ⟨h1, h2, h3, h4, h5, h6⟩
  simp only [XyzToRgbQ, RgbToXyzQ]
  refine ⟨?_, ?_, ?_⟩ <;> rw [abs_le] <;> constructor <;>
    nlinarith [h1, h2, h3, h4, h5, h6]

/-- Witness for C8: the in-range pixel `(1/2, 1/4, 3/4)` round-trips through
XYZ to within `10⁻⁵` per channel. -/
theorem xyz_roundtrip_tolerance_witness :
    rgbInRange ((1 : ℚ)/2, (1 : ℚ)/4, (3 : ℚ)/4) ∧
    (|(XyzToRgbQ (RgbToXyzQ ((1 : ℚ)/2, (1 : ℚ)/4, (3 : ℚ)/4))).1 -
        ((1 : ℚ)/2, (1 : ℚ)/4, (3 : ℚ)/4).1| ≤ 1 / 100000 ∧
     |(XyzToRgbQ (RgbToXyzQ ((1 : ℚ)/2, (1 : ℚ)/4, (3 : ℚ)/4))).2.1 -
        ((1 : ℚ)/2, (1 : ℚ)/4, (3 : ℚ)/4).2.1| ≤ 1 / 100000 ∧
     |(XyzToRgbQ (RgbToXyzQ ((1 : ℚ)/2, (1 : ℚ)/4, (3 : ℚ)/4))).2.2 -
        ((1 : ℚ)/2, (1 : ℚ)/4, (3 : ℚ)/4).2.2| ≤ 1 / 100000) := by
  have h : rgbInRange ((1 : ℚ)/2, (1 : ℚ)/4, (3 : ℚ)/4) := by
    norm_num [rgbInRange]
  exact ⟨h, xyz_roundtrip_tolerance ((1 : ℚ)/2, (1 : ℚ)/4, (3 : ℚ)/4) h⟩
